import Mathlib

/-!
Verification of the statistical post-processing routines of the
QuantumComputing experiment scripts: the exponential-decay (T1) estimator
of `qiskit-experiment/test_t1_direct.py` and the linear cross-entropy
benchmarking score of `AzureQuantum/backend.py`.

The numerical code is embedded shallowly over `ℚ`.  The external
floating-point primitives that the scripts call — `np.exp`, `np.sqrt`,
NumPy's random samplers, and the iterative Levenberg–Marquardt core of
`scipy.optimize.leastsq` — are taken as explicit function parameters,
while every deterministic piece of Python code on the path (the bodies of
the repository's functions, and the input handling that
`scipy.optimize.curve_fit` performs before the iteration starts) is
translated directly.
-/

namespace QC

/-- Exceptions as they matter to the scripts: every one of them is caught
by the bare `except Exception` of `fit_exponential_decay`, so only the
kind is modelled. -/
inductive PyError
  | valueError
  | typeError
  | runtimeError
deriving DecidableEq, Repr

/-- The parameter triple `(A, T1, B)` of the decay model, the shape of
`popt` and of the initial guess `p0` in `fit_exponential_decay`. -/
abbrev FitParams : Type := ℚ × ℚ × ℚ

/-- The 3×3 covariance matrix `pcov` returned by `curve_fit`; the script
reads entry `pcov[1,1]`. -/
abbrev Pcov : Type := Fin 3 → Fin 3 → ℚ

/-- The undetermined core of `scipy.optimize.curve_fit` for
`method='lm'`: the iterative `leastsq` optimization (run with
`maxfev=10000` here) together with scipy's covariance post-processing.
It receives the model, the data and the initial guess, and either
produces `(popt, pcov)` or raises (`RuntimeError` on non-convergence).
Only invoked after `curve_fit`'s deterministic input checks pass. -/
abbrev Minimizer : Type :=
  (ℚ → ℚ → ℚ → ℚ → ℚ) → List ℚ → List ℚ → FitParams →
    Except PyError (FitParams × Pcov)

/-- Length of the NumPy broadcast of two 1-d arrays of lengths `m` and
`k`: equal lengths broadcast to themselves, a length-1 array broadcasts
against any other, and anything else raises. -/
def numpy_broadcast_len (m k : ℕ) : Option ℕ :=
  if m = k then some m
  else if m = 1 then some k
  else if k = 1 then some m
  else none

/-- The deterministic input handling of `scipy.optimize.curve_fit`
(method `'lm'`, the method used by `fit_exponential_decay`, which passes
no bounds), in the order scipy performs it:
* `ydata` must not be empty (`ValueError`);
* the first residual evaluation `f(xdata, *p0) - ydata` broadcasts the
  model output (one value per entry of `xdata`) against `ydata`
  (`ValueError` when the shapes are incompatible);
* `leastsq` rejects problems with more parameters (here `n = 3`) than
  residuals (`TypeError`).
Everything after these checks is the iterative core, `minimizer`. -/
def curve_fit (minimizer : Minimizer) (f : ℚ → ℚ → ℚ → ℚ → ℚ)
    (xdata ydata : List ℚ) (guess : FitParams) :
    Except PyError (FitParams × Pcov) :=
  if ydata.length = 0 then .error .valueError
  else
    match numpy_broadcast_len xdata.length ydata.length with
    | none => .error .valueError
    | some m =>
      if 3 > m then .error .typeError
      else minimizer f xdata ydata guess

/-- The model fitted by `fit_exponential_decay`
(`test_t1_direct.py:66-67`): `exponential_decay(t, A, T1, B) =
A * np.exp(-t / T1) + B`, with `np.exp` the abstract parameter `exp`. -/
def exponential_decay (exp : ℚ → ℚ) (t A T1 B : ℚ) : ℚ :=
  A * exp (-t / T1) + B

/-- The initial guess of `fit_exponential_decay`
(`test_t1_direct.py:71`): `p0 = [1.0, 50e-6, 0.0]`. -/
def p0 : FitParams := (1, 50 / 1000000, 0)

/-- `fit_exponential_decay(delays, probabilities)`
(`test_t1_direct.py:62-83`).  It calls `curve_fit` on
`exponential_decay` with initial guess `p0`, destructures
`popt = (A, T1_fit, B)`, sets
`T1_error = np.sqrt(pcov[1,1]) if pcov[1,1] > 0 else 0`, and returns
`(T1_fit, T1_error, popt)`; any exception is caught and the triple
`(None, None, None)` — modelled as `none` — is returned instead.
`exp` and `sqrt` stand for `np.exp` and `np.sqrt`. -/
def fit_exponential_decay (exp sqrt : ℚ → ℚ) (minimizer : Minimizer)
    (delays probabilities : List ℚ) : Option (ℚ × ℚ × FitParams) :=
  match curve_fit minimizer (exponential_decay exp) delays probabilities p0 with
  | .ok (popt, pcov) =>
    let T1_error : ℚ := if pcov 1 1 > 0 then sqrt (pcov 1 1) else 0
    some (popt.2.1, T1_error, popt)
  | .error _ => none

/-- The model as the specification words it: `P(t) = A·exp(−t/T) + B`. -/
def specDecayModel (exp : ℚ → ℚ) (t A T B : ℚ) : ℚ :=
  A * exp (-t / T) + B

/-- A minimizer that converges at once, answering with the supplied
initial guess and an all-zero covariance matrix.  Used to instantiate
theorems about the success path. -/
def okMin : Minimizer := fun _ _ _ guess => .ok (guess, fun _ _ => 0)

/-- A minimizer whose covariance matrix has `pcov[1,1] = 4`. -/
def okMinPcov4 : Minimizer := fun _ _ _ guess =>
  .ok (guess, fun i j => if i = 1 ∧ j = 1 then 4 else 0)

/-- A minimizer that never converges: every call raises `RuntimeError`
(what `leastsq` does when the maximum number of evaluations is reached
or the Jacobian degenerates irrecoverably). -/
def failMin : Minimizer := fun _ _ _ _ => .error .runtimeError

/-! ## Cross-entropy benchmarking (`AzureQuantum/backend.py`)

Bitstrings (Python `str` keys of the probability dictionaries, built by
`format(i, "0{n}b")`) are modelled as `List Bool`; a probability
dictionary as an association list with distinct keys not required —
lookup takes the first match, as a Python `dict` has unique keys. -/

/-- `d.get(b, 0)`: the value stored at key `b`, or `0` when absent. -/
def dict_get (d : List (List Bool × ℚ)) (b : List Bool) : ℚ :=
  match d.find? (fun kv => kv.1 == b) with
  | some kv => kv.2
  | none => 0

/-- `compute_xeb_score(exp_probs_dict, ideal_probs_dict, bitstrings)`
(`backend.py:64-78`):
`sum(exp_probs_dict.get(b, 0) * ideal_probs_dict.get(b, 0) for b in bitstrings)`. -/
def compute_xeb_score (exp_probs_dict ideal_probs_dict : List (List Bool × ℚ))
    (bitstrings : List (List Bool)) : ℚ :=
  (bitstrings.map
    (fun b => dict_get exp_probs_dict b * dict_get ideal_probs_dict b)).sum

/-! ## T1 decay simulation (`test_t1_direct.py:34-59`) -/

/-- One entry of the list built by `simulate_t1_decay`: the dictionary
`{'counts': {'0': count_0, '1': count_1}, 'prob_1': count_1 / shots}`.
Counts are Python integers, hence `ℤ`. -/
structure T1Point where
  count_0 : ℤ
  count_1 : ℤ
  prob_1 : ℚ
deriving DecidableEq, Repr

/-- `simulate_t1_decay(delay_times, t1_time, shots)` (Python default
`shots=1000`), with the random draws made explicit: `normal i σ` is the
`np.random.normal(0, σ)` sample of iteration `i`, and `binomial i n q`
the `np.random.binomial(n, q)` sample of iteration `i`.  Per delay:
`prob_1 = np.exp(-delay_time / t1_time)`, then 2 % multiplicative
Gaussian noise is added, the value is clamped to `[0, 1]`, shot noise is
drawn binomially, and `count_0 = shots - count_1`. -/
def simulate_t1_decay (exp : ℚ → ℚ) (normal : ℕ → ℚ → ℚ)
    (binomial : ℕ → ℤ → ℚ → ℤ) (delay_times : List ℚ) (t1_time : ℚ)
    (shots : ℤ) : List T1Point :=
  ((List.range delay_times.length).zip delay_times).map
    (fun it =>
      let prob_1 := exp (-it.2 / t1_time)
      let noise_level : ℚ := 2 / 100
      let prob_1 := prob_1 + normal it.1 (noise_level * prob_1)
      let prob_1 := max 0 (min 1 prob_1)
      let count_1 := binomial it.1 shots prob_1
      let count_0 := shots - count_1
      { count_0 := count_0, count_1 := count_1
        prob_1 := (count_1 : ℚ) / (shots : ℚ) })

/-! ## Theorems -/

/-- Helper: when the input checks of `curve_fit` pass (equal lengths, at
least 3 points), the call is exactly the iterative core. -/
theorem curve_fit_checks_pass (minimizer : Minimizer) (f : ℚ → ℚ → ℚ → ℚ → ℚ)
    (xdata ydata : List ℚ) (guess : FitParams)
    (hlen : xdata.length = ydata.length) (h3 : 3 ≤ ydata.length) :
    curve_fit minimizer f xdata ydata guess = minimizer f xdata ydata guess := by
  have h0 : ¬ ydata.length = 0 := by omega
  have h3x : ¬ (3 > ydata.length) := by omega
  simp [curve_fit, numpy_broadcast_len, hlen, h0, h3x]

/-- C1: `fit_exponential_decay` minimises over exactly the model
`P(t) = A·exp(−t/T) + B` — the function handed to `curve_fit` is
`exponential_decay`, which agrees with the spec's model pointwise for
every `t, A, T, B` — and, whenever the nonlinear-least-squares call
returns a minimum `popt = (A, T, B)` with covariance `pcov`, it returns
the triple `(T, stderr, (A, T, B))`. -/
theorem fit_exponential_decay_model_and_result :
    (∀ exp t A T B, exponential_decay exp t A T B = specDecayModel exp t A T B)
    ∧ ∀ exp sqrt minimizer delays probabilities popt pcov,
        curve_fit minimizer (exponential_decay exp) delays probabilities p0
          = .ok (popt, pcov) →
        fit_exponential_decay exp sqrt minimizer delays probabilities =
          some (popt.2.1, if pcov 1 1 > 0 then sqrt (pcov 1 1) else 0, popt) := by
  refine ⟨fun exp t A T B => rfl, ?_⟩
  intro exp sqrt minimizer delays probabilities popt pcov h
  unfold fit_exponential_decay
  rw [h]

/-- Witness for C1 at `delays = [0, 1, 2]`, `probabilities = [1, 1, 1]`
with the immediately-converging optimizer. -/
theorem fit_exponential_decay_model_and_result_w :
    exponential_decay id 2 3 5 7 = specDecayModel id 2 3 5 7
    ∧ fit_exponential_decay id id okMin [0, 1, 2] [1, 1, 1] =
        some (p0.2.1, 0, p0) := by
  refine ⟨fit_exponential_decay_model_and_result.1 id 2 3 5 7, ?_⟩
  have h := fit_exponential_decay_model_and_result.2 id id okMin [0, 1, 2] [1, 1, 1]
    p0 (fun _ _ => 0) rfl
  simpa using h

/-- C2: when the iterative optimizer raises (non-convergence,
singular Jacobian, …), `fit_exponential_decay` returns the failure
signal — the triple `(None, None, None)`, modelled `none` — and never a
partial or invalid result. -/
theorem optimizer_failure_returns_failure (exp sqrt : ℚ → ℚ)
    (minimizer : Minimizer) (delays probabilities : List ℚ) (e : PyError)
    (h : minimizer (exponential_decay exp) delays probabilities p0 = .error e) :
    fit_exponential_decay exp sqrt minimizer delays probabilities = none := by
  unfold fit_exponential_decay curve_fit
  by_cases h0 : probabilities.length = 0
  · simp [h0]
  · cases hb : numpy_broadcast_len delays.length probabilities.length with
    | none => simp [h0, hb]
    | some m =>
      by_cases h3 : 3 > m
      · simp [h0, hb, h3]
      · simp [h0, hb, h3, h]

/-- Witness for C2 with the never-converging optimizer. -/
theorem optimizer_failure_returns_failure_w :
    fit_exponential_decay id id failMin [0, 1, 2] [1, 1, 1] = none :=
  optimizer_failure_returns_failure id id failMin [0, 1, 2] [1, 1, 1]
    .runtimeError rfl

/-- C6: on every successful fit, the returned standard error of `T` is
`np.sqrt(pcov[1,1])` — the square root of the second diagonal entry of
the covariance matrix — when that entry is positive, and `0` otherwise. -/
theorem stderr_from_covariance (exp sqrt : ℚ → ℚ) (minimizer : Minimizer)
    (delays probabilities : List ℚ) (popt : FitParams) (pcov : Pcov)
    (h : curve_fit minimizer (exponential_decay exp) delays probabilities p0
      = .ok (popt, pcov)) :
    ∃ T1_fit, fit_exponential_decay exp sqrt minimizer delays probabilities
      = some (T1_fit, if pcov 1 1 > 0 then sqrt (pcov 1 1) else 0, popt) := by
  refine ⟨popt.2.1, ?_⟩
  unfold fit_exponential_decay
  rw [h]

/-- Witness for C6, exercising both branches: a covariance with
`pcov[1,1] = 4 > 0` (stderr `sqrt 4`) and the all-zero covariance
(stderr `0`). -/
theorem stderr_from_covariance_w :
    (∃ T1_fit, fit_exponential_decay id id okMinPcov4 [0, 1, 2] [1, 1, 1]
      = some (T1_fit, id 4, p0))
    ∧ ∃ T1_fit, fit_exponential_decay id id okMin [0, 1, 2] [1, 1, 1]
      = some (T1_fit, 0, p0) := by
  constructor
  · have h := stderr_from_covariance id id okMinPcov4 [0, 1, 2] [1, 1, 1]
      p0 (fun i j => if i = 1 ∧ j = 1 then 4 else 0) rfl
    simpa using h
  · have h := stderr_from_covariance id id okMin [0, 1, 2] [1, 1, 1]
      p0 (fun _ _ => 0) rfl
    simpa using h

/-- C8: the fit always starts from the default initial guess
`p0 = (A=1, T=50e-6, B=0)` (`50e-6 = 50/1000000`): the optimizer is
consulted at `p0` and nowhere else, so two optimizers agreeing there
yield the same estimate. -/
theorem default_initial_guess :
    p0 = (1, 50 / 1000000, 0)
    ∧ ∀ exp sqrt m1 m2 delays probabilities,
        m1 (exponential_decay exp) delays probabilities p0
          = m2 (exponential_decay exp) delays probabilities p0 →
        fit_exponential_decay exp sqrt m1 delays probabilities
          = fit_exponential_decay exp sqrt m2 delays probabilities := by
  refine ⟨rfl, ?_⟩
  intro exp sqrt m1 m2 delays probabilities h
  unfold fit_exponential_decay curve_fit
  by_cases h0 : probabilities.length = 0
  · simp [h0]
  · cases hb : numpy_broadcast_len delays.length probabilities.length with
    | none => simp [h0, hb]
    | some m =>
      by_cases h3 : 3 > m
      · simp [h0, hb, h3]
      · simp [h0, hb, h3, h]

/-- Witness for C8: two optimizers that agree at the default guess give
the same estimate on `[0, 1, 2]`, `[1, 1, 1]`. -/
theorem default_initial_guess_w :
    p0 = (1, 50 / 1000000, 0)
    ∧ fit_exponential_decay id id okMin [0, 1, 2] [1, 1, 1]
      = fit_exponential_decay id id
          (fun _ _ _ guess => .ok (guess, fun _ _ => 0)) [0, 1, 2] [1, 1, 1] :=
  ⟨default_initial_guess.1,
   default_initial_guess.2 id id okMin
     (fun _ _ _ guess => .ok (guess, fun _ _ => 0)) [0, 1, 2] [1, 1, 1] rfl⟩

/-- C3 counterexample: the code has no typed `InsufficientData` error.
A 1-observation input and a well-formed 3-observation input on which the
optimizer merely fails to converge produce the very same value — the
untagged `(None, None, None)` — so no `InsufficientData`-specific signal
exists, contrary to the claim. -/
theorem insufficient_data_untyped_cex :
    fit_exponential_decay id id failMin [0] [1] = none
    ∧ fit_exponential_decay id id failMin [0, 1, 2] [1, 1, 1] = none
    ∧ fit_exponential_decay id id failMin [0] [1]
      = fit_exponential_decay id id failMin [0, 1, 2] [1, 1, 1] :=
  ⟨rfl, rfl, rfl⟩

/-- C3 amended: for equal-length inputs with fewer than 3 observations
the estimator does fail — scipy's `lm` path rejects fitting 3 parameters
to fewer than 3 residuals before any optimization — but the failure is
the untyped triple `(None, None, None)`, indistinguishable from every
other failure. -/
theorem insufficient_data_amended (exp sqrt : ℚ → ℚ) (minimizer : Minimizer)
    (delays probabilities : List ℚ)
    (hlen : delays.length = probabilities.length)
    (h3 : probabilities.length < 3) :
    fit_exponential_decay exp sqrt minimizer delays probabilities = none := by
  unfold fit_exponential_decay curve_fit
  by_cases h0 : probabilities.length = 0
  · simp [h0]
  · have h3' : 3 > probabilities.length := h3
    simp [numpy_broadcast_len, hlen, h0, h3']

/-- Witness for the amended C3 at a single observation, with an
optimizer that would converge at once were it ever consulted. -/
theorem insufficient_data_amended_w :
    fit_exponential_decay id id okMin [0] [1] = none :=
  insufficient_data_amended id id okMin [0] [1] rfl (by decide)

/-- C4 counterexample: mismatched lengths do not always make the
estimator fail, let alone with a typed `InvalidInput`: five delays
against a single probability broadcast inside `curve_fit` (NumPy
stretches the length-1 array), the optimizer runs, and — here with the
immediately-converging optimizer — a fit is returned. -/
theorem mismatched_lengths_cex :
    ([(0 : ℚ), 1, 2, 3, 4].length ≠ [(1 : ℚ)].length)
    ∧ fit_exponential_decay id id okMin [0, 1, 2, 3, 4] [1]
      = some (p0.2.1, 0, p0) :=
  ⟨by decide, rfl⟩

/-- C4 amended: no explicit length validation exists.  When neither
sequence has length 1 a mismatch makes the residual broadcast raise and
the estimator returns the untyped `(None, None, None)` — not a typed
`InvalidInput` — while a mismatched pair whose probability sequence has
length 1 (against at least 3 delays) is broadcast and handed to the
optimizer as if the lengths agreed. -/
theorem mismatched_lengths_amended :
    (∀ exp sqrt minimizer delays probabilities,
      delays.length ≠ probabilities.length → delays.length ≠ 1 →
      probabilities.length ≠ 1 →
      fit_exponential_decay exp sqrt minimizer delays probabilities = none)
    ∧ ∀ exp sqrt minimizer delays probabilities popt pcov,
        delays.length ≠ probabilities.length → probabilities.length = 1 →
        3 ≤ delays.length →
        minimizer (exponential_decay exp) delays probabilities p0
          = .ok (popt, pcov) →
        fit_exponential_decay exp sqrt minimizer delays probabilities =
          some (popt.2.1, if pcov 1 1 > 0 then sqrt (pcov 1 1) else 0, popt) := by
  constructor
  · intro exp sqrt minimizer delays probabilities hne hx1 hy1
    unfold fit_exponential_decay curve_fit
    by_cases h0 : probabilities.length = 0
    · simp [h0]
    · simp [numpy_broadcast_len, hne, hx1, hy1, h0]
  · intro exp sqrt minimizer delays probabilities popt pcov hne hy1 hx3 hmin
    have hx1 : delays.length ≠ 1 := by omega
    have h3' : ¬ (3 > delays.length) := by omega
    unfold fit_exponential_decay curve_fit
    simp [numpy_broadcast_len, hne, hx1, hy1, h3', hmin]

/-- Witness for the amended C4: a non-broadcastable mismatch yields the
untyped failure; a broadcastable one is fitted. -/
theorem mismatched_lengths_amended_w :
    fit_exponential_decay id id okMin [0, 1] [1, 1, 1] = none
    ∧ fit_exponential_decay id id okMin [0, 1, 2] [1]
      = some (p0.2.1, 0, p0) := by
  constructor
  · exact mismatched_lengths_amended.1 id id okMin [0, 1] [1, 1, 1]
      (by decide) (by decide) (by decide)
  · have h := mismatched_lengths_amended.2 id id okMin [0, 1, 2] [1]
      p0 (fun _ _ => 0) (by decide) rfl (by decide) rfl
    simpa using h

/-- C5 counterexample: a negative delay is not rejected.  On
`delays = [-1, 0, 1]` — the first entry negative — the estimator returns
a fit (here with the immediately-converging optimizer) instead of an
`InvalidInput` failure. -/
theorem negative_times_cex :
    ((-1 : ℚ) < 0)
    ∧ fit_exponential_decay id id okMin [-1, 0, 1] [1, 1, 1]
      = some (p0.2.1, 0, p0) :=
  ⟨by norm_num, rfl⟩

/-- C5 amended: `fit_exponential_decay` performs no validation of time
values.  Even when some delay is negative, a well-shaped input passes
every input check and the result is exactly the optimizer's outcome —
never an `InvalidInput` rejection.  (The negativity hypothesis is
deliberately unused: that is the content — the sign never matters.) -/
theorem negative_times_amended (exp sqrt : ℚ → ℚ) (minimizer : Minimizer)
    (delays probabilities : List ℚ)
    (_hneg : ∃ t ∈ delays, t < 0)
    (hlen : delays.length = probabilities.length)
    (h3 : 3 ≤ probabilities.length) :
    fit_exponential_decay exp sqrt minimizer delays probabilities =
      match minimizer (exponential_decay exp) delays probabilities p0 with
      | .ok (popt, pcov) =>
        some (popt.2.1, if pcov 1 1 > 0 then sqrt (pcov 1 1) else 0, popt)
      | .error _ => none := by
  unfold fit_exponential_decay
  rw [curve_fit_checks_pass minimizer (exponential_decay exp)
    delays probabilities p0 hlen h3]

/-- Witness for the amended C5 at `delays = [-1, 0, 1]` with the
never-converging optimizer. -/
theorem negative_times_amended_w :
    fit_exponential_decay id id failMin [-1, 0, 1] [1, 1, 1] =
      match failMin (exponential_decay id) [-1, 0, 1] [1, 1, 1] p0 with
      | .ok (popt, pcov) =>
        some (popt.2.1, if pcov 1 1 > 0 then id (pcov 1 1) else 0, popt)
      | .error _ => none :=
  negative_times_amended id id failMin [-1, 0, 1] [1, 1, 1]
    ⟨-1, by norm_num, by norm_num⟩ rfl (by decide)

/-- C9: `compute_xeb_score` is the sum, over the listed bitstrings, of
the products of the two dictionaries' probabilities; a key absent from a
dictionary contributes probability `0`; and the score is symmetric in
the experimental and ideal dictionaries. -/
theorem compute_xeb_score_spec :
    (∀ e i bs, compute_xeb_score e i bs
      = (bs.map (fun b => dict_get e b * dict_get i b)).sum)
    ∧ (∀ d b, (∀ kv ∈ d, kv.1 ≠ b) → dict_get d b = 0)
    ∧ ∀ e i bs, compute_xeb_score e i bs = compute_xeb_score i e bs := by
  refine ⟨fun e i bs => rfl, ?_, ?_⟩
  · intro d b habs
    unfold dict_get
    have : d.find? (fun kv => kv.1 == b) = none := by
      rw [List.find?_eq_none]
      intro kv hkv
      simpa using habs kv hkv
    rw [this]
  · intro e i bs
    unfold compute_xeb_score
    have : (fun b => dict_get e b * dict_get i b)
        = fun b => dict_get i b * dict_get e b := funext fun b => mul_comm _ _
    rw [this]

/-- Witness for C9 on two small concrete dictionaries over 1-bit
strings. -/
theorem compute_xeb_score_spec_w :
    (compute_xeb_score [([true], 3)] [([true], 5), ([false], 7)]
        [[true], [false]]
      = (([[true], [false]] : List (List Bool)).map
          (fun b => dict_get [([true], 3)] b
            * dict_get [([true], 5), ([false], 7)] b)).sum)
    ∧ dict_get [([true], 3)] [false] = 0
    ∧ compute_xeb_score [([true], 3)] [([true], 5), ([false], 7)]
        [[true], [false]]
      = compute_xeb_score [([true], 5), ([false], 7)] [([true], 3)]
        [[true], [false]] :=
  ⟨compute_xeb_score_spec.1 [([true], 3)] [([true], 5), ([false], 7)]
      [[true], [false]],
   compute_xeb_score_spec.2.1 [([true], 3)] [false] (by decide),
   compute_xeb_score_spec.2.2 [([true], 3)] [([true], 5), ([false], 7)]
      [[true], [false]]⟩

/-- C10: every entry produced by `simulate_t1_decay` has non-negative
counts summing exactly to `shots`, and records
`prob_1 = count_1 / shots ∈ [0, 1]`.  The binomial sampler is assumed to
satisfy the contract of `np.random.binomial`: a draw from `n` trials
lies in `[0, n]`. -/
theorem simulate_t1_decay_invariants (exp : ℚ → ℚ) (normal : ℕ → ℚ → ℚ)
    (binomial : ℕ → ℤ → ℚ → ℤ) (delay_times : List ℚ) (t1_time : ℚ)
    (shots : ℤ) (_ht1 : 0 < t1_time) (hshots : 0 < shots)
    (hbin : ∀ i n q, 0 ≤ n → 0 ≤ binomial i n q ∧ binomial i n q ≤ n) :
    ∀ r ∈ simulate_t1_decay exp normal binomial delay_times t1_time shots,
      0 ≤ r.count_0 ∧ 0 ≤ r.count_1 ∧ r.count_0 + r.count_1 = shots
      ∧ r.prob_1 = (r.count_1 : ℚ) / (shots : ℚ)
      ∧ 0 ≤ r.prob_1 ∧ r.prob_1 ≤ 1 := by
  intro r hr
  unfold simulate_t1_decay at hr
  rw [List.mem_map] at hr
  obtain ⟨it, hmem, hre⟩ := hr
  obtain ⟨hb0, hb1⟩ := hbin it.1 shots
    (max 0 (min 1 (exp (-it.2 / t1_time)
      + normal it.1 (2 / 100 * exp (-it.2 / t1_time))))) hshots.le
  subst hre
  refine ⟨by dsimp only; omega, by dsimp only; exact hb0,
    by dsimp only; omega, rfl, ?_, ?_⟩
  · dsimp only
    apply div_nonneg
    · exact_mod_cast hb0
    · exact_mod_cast hshots.le
  · dsimp only
    rw [div_le_one (by exact_mod_cast hshots)]
    exact_mod_cast hb1

/-- Witness for C10 with concrete oracles — constant unit decay, zero
noise, the maximal binomial draw, `shots = 3` — at the first produced
entry, `{'counts': {'0': 0, '1': 3}, 'prob_1': 1}`. -/
theorem simulate_t1_decay_invariants_w :
    0 ≤ (⟨0, 3, 1⟩ : T1Point).count_0 ∧ 0 ≤ (⟨0, 3, 1⟩ : T1Point).count_1
    ∧ (⟨0, 3, 1⟩ : T1Point).count_0 + (⟨0, 3, 1⟩ : T1Point).count_1 = 3
    ∧ (⟨0, 3, 1⟩ : T1Point).prob_1
      = (((⟨0, 3, 1⟩ : T1Point).count_1 : ℚ)) / ((3 : ℤ) : ℚ)
    ∧ 0 ≤ (⟨0, 3, 1⟩ : T1Point).prob_1 ∧ (⟨0, 3, 1⟩ : T1Point).prob_1 ≤ 1 :=
  simulate_t1_decay_invariants (fun _ => 1) (fun _ _ => 0) (fun _ n _ => n)
    [0, 1] 1 3 (by norm_num) (by norm_num)
    (fun i n q hn => ⟨hn, le_refl n⟩) ⟨0, 3, 1⟩
    (by simp [simulate_t1_decay])

end QC
